import Mathlib

/-!
Verification of the visa-eligibility core (`visaEligibility` and its helpers):
cache-key derivation, cache freshness, the retrying fetcher, the
merge-and-sort step, and the request handler, shallowly embedded from the
TypeScript source.  JavaScript machine numbers are modelled as `Rat`
(all values appearing here are exact decimals), timestamps as `Int`
milliseconds, and JSON values by an explicit `JSValue` type so that the
truthiness checks of the source are represented faithfully.
-/

/-- A JavaScript value as it can appear in a JSON request-body field.
`undefined` models an absent field.  (`NaN` is not modelled; no value in
this development produces it.) -/
inductive JSValue where
  | undefined
  | null
  | bool (b : Bool)
  | num (q : Rat)
  | str (s : String)
deriving DecidableEq, Repr

/-- JavaScript truthiness of a `JSValue` (used by `!countryCode || !nationality`
in the source handler). -/
def JSValue.truthy : JSValue → Bool
  | .undefined => false
  | .null => false
  | .bool b => b
  | .num q => q != 0
  | .str s => s != ""

/-- `typeof v === 'string'` on a `JSValue`. -/
def JSValue.isString : JSValue → Bool
  | .str _ => true
  | _ => false

/-- The string payload of a `JSValue`, when it is a string. -/
def JSValue.asString : JSValue → Option String
  | .str s => some s
  | _ => none

/-- The `type` field of a `VisaOption`: the source uses the string literals
`'iVisa'` and `'KITAS'`. -/
inductive VisaType where
  | iVisa
  | KITAS
deriving DecidableEq, Repr

/-- The `VisaOption` interface of the source, with `cost` as an exact
rational (JS number) and `processingTimeDays` / `priority` as naturals. -/
structure VisaOption where
  id : String
  name : String
  type : VisaType
  visaRequired : Bool
  processingTime : String
  processingTimeDays : Nat
  cost : Rat
  costCurrency : String
  description : String
  requirements : List String
  validity : String
  source : String
  priority : Nat
deriving DecidableEq, Repr

/-- The static `KITAS_OVERRIDES` table for Indonesia, copied field for field
from the source. -/
def KITAS_OVERRIDES : List VisaOption := [
  { id := "kitas-work"
    name := "KITAS Work Permit"
    type := .KITAS
    visaRequired := true
    processingTime := "15-30 business days"
    processingTimeDays := 22
    cost := 2500000
    costCurrency := "IDR"
    description := "Work permit for foreign nationals employed in Indonesia"
    requirements := [
      "Valid passport with minimum 18 months validity",
      "Employment contract from Indonesian company",
      "Educational certificates (minimum Bachelor degree)",
      "Health certificate",
      "Police clearance certificate",
      "Company sponsorship letter"]
    validity := "1 year (renewable)"
    source := "Indonesian Immigration"
    priority := 1 },
  { id := "kitas-investment"
    name := "KITAS Investment"
    type := .KITAS
    visaRequired := true
    processingTime := "20-35 business days"
    processingTimeDays := 27
    cost := 5000000
    costCurrency := "IDR"
    description := "Investment permit for foreign investors in Indonesia"
    requirements := [
      "Minimum investment of USD 1,000,000",
      "Business plan approved by BKPM",
      "Valid passport with minimum 18 months validity",
      "Health certificate",
      "Police clearance certificate",
      "Bank statement showing investment funds"]
    validity := "2 years (renewable)"
    source := "Indonesian Immigration"
    priority := 2 },
  { id := "kitas-family"
    name := "KITAS Family Reunion"
    type := .KITAS
    visaRequired := true
    processingTime := "10-20 business days"
    processingTimeDays := 15
    cost := 1500000
    costCurrency := "IDR"
    description := "Family reunion permit for spouses and children of KITAS holders"
    requirements := [
      "Marriage certificate (for spouses)",
      "Birth certificate (for children)",
      "Sponsor\x27s KITAS",
      "Valid passport with minimum 18 months validity",
      "Health certificate",
      "Proof of relationship"]
    validity := "1 year (renewable)"
    source := "Indonesian Immigration"
    priority := 3 },
  { id := "kitas-student"
    name := "KITAS Student"
    type := .KITAS
    visaRequired := true
    processingTime := "12-25 business days"
    processingTimeDays := 18
    cost := 2000000
    costCurrency := "IDR"
    description := "Student permit for foreign students studying in Indonesia"
    requirements := [
      "Acceptance letter from Indonesian educational institution",
      "Valid passport with minimum 18 months validity",
      "Educational certificates",
      "Health certificate",
      "Financial guarantee letter",
      "Study plan"]
    validity := "1 year (renewable)"
    source := "Indonesian Immigration"
    priority := 4 }]

/-- `String.prototype.toLowerCase()` restricted to its ASCII behaviour,
character by character (the inputs of interest are 2-character country
codes). -/
def strToLower (s : String) : String := ⟨s.data.map Char.toLower⟩

/-- `String.prototype.toUpperCase()` restricted to its ASCII behaviour,
character by character. -/
def strToUpper (s : String) : String := ⟨s.data.map Char.toUpper⟩

/-- `CACHE_DURATION_HOURS` from the source configuration block. -/
def CACHE_DURATION_HOURS : Int := 24

/-- `MAX_RETRIES` from the source configuration block. -/
def MAX_RETRIES : Nat := 3

/-- `BASE_RETRY_DELAY_MS` from the source configuration block. -/
def BASE_RETRY_DELAY_MS : Nat := 1000

/-- `MAX_RETRY_DELAY_MS` from the source configuration block. -/
def MAX_RETRY_DELAY_MS : Nat := 10000

/-- `isCacheValid` from the source.  The source reads the current time via
`admin.firestore.Timestamp.now()`; here `now` is passed explicitly, both
timestamps in milliseconds. -/
def isCacheValid (timestamp : Int) (now : Int) : Bool :=
  let cacheAge := now - timestamp
  let maxAgeMs := CACHE_DURATION_HOURS * 60 * 60 * 1000
  decide (cacheAge < maxAgeMs)

/-!
### MD5 (RFC 1321)

`generateCacheHash` in the source calls `crypto.createHash('md5')` on the
UTF-8 bytes of its input.  The algorithm is embedded here over `Nat` bytes
with explicit reduction modulo `2^32`.
-/

/-- UTF-8 encoding of one character, as `Nat` bytes. -/
def utf8Bytes (c : Char) : List Nat :=
  let n := c.toNat
  if n < 0x80 then [n]
  else if n < 0x800 then
    [0xC0 ||| (n >>> 6), 0x80 ||| (n &&& 0x3F)]
  else if n < 0x10000 then
    [0xE0 ||| (n >>> 12), 0x80 ||| ((n >>> 6) &&& 0x3F), 0x80 ||| (n &&& 0x3F)]
  else
    [0xF0 ||| (n >>> 18), 0x80 ||| ((n >>> 12) &&& 0x3F),
     0x80 ||| ((n >>> 6) &&& 0x3F), 0x80 ||| (n &&& 0x3F)]

/-- UTF-8 bytes of a string. -/
def strUtf8 (s : String) : List Nat := s.data.flatMap utf8Bytes

/-- Addition modulo `2^32`. -/
def add32 (x y : Nat) : Nat := (x + y) % 4294967296

/-- Left rotation of a 32-bit word. -/
def rotl32 (x s : Nat) : Nat := ((x <<< s) ||| (x >>> (32 - s))) % 4294967296

/-- Bitwise complement of a 32-bit word. -/
def not32 (x : Nat) : Nat := x ^^^ 0xFFFFFFFF

/-- The MD5 sine-derived constant table `K[0..63]`. -/
def md5K : List Nat := [
  0xd76aa478, 0xe8c7b756, 0x242070db, 0xc1bdceee,
  0xf57c0faf, 0x4787c62a, 0xa8304613, 0xfd469501,
  0x698098d8, 0x8b44f7af, 0xffff5bb1, 0x895cd7be,
  0x6b901122, 0xfd987193, 0xa679438e, 0x49b40821,
  0xf61e2562, 0xc040b340, 0x265e5a51, 0xe9b6c7aa,
  0xd62f105d, 0x02441453, 0xd8a1e681, 0xe7d3fbc8,
  0x21e1cde6, 0xc33707d6, 0xf4d50d87, 0x455a14ed,
  0xa9e3e905, 0xfcefa3f8, 0x676f02d9, 0x8d2a4c8a,
  0xfffa3942, 0x8771f681, 0x6d9d6122, 0xfde5380c,
  0xa4beea44, 0x4bdecfa9, 0xf6bb4b60, 0xbebfbc70,
  0x289b7ec6, 0xeaa127fa, 0xd4ef3085, 0x04881d05,
  0xd9d4d039, 0xe6db99e5, 0x1fa27cf8, 0xc4ac5665,
  0xf4292244, 0x432aff97, 0xab9423a7, 0xfc93a039,
  0x655b59c3, 0x8f0ccc92, 0xffeff47d, 0x85845dd1,
  0x6fa87e4f, 0xfe2ce6e0, 0xa3014314, 0x4e0811a1,
  0xf7537e82, 0xbd3af235, 0x2ad7d2bb, 0xeb86d391]

/-- The MD5 per-round shift table `s[0..63]`. -/
def md5S : List Nat := [
  7, 12, 17, 22, 7, 12, 17, 22, 7, 12, 17, 22, 7, 12, 17, 22,
  5, 9, 14, 20, 5, 9, 14, 20, 5, 9, 14, 20, 5, 9, 14, 20,
  4, 11, 16, 23, 4, 11, 16, 23, 4, 11, 16, 23, 4, 11, 16, 23,
  6, 10, 15, 21, 6, 10, 15, 21, 6, 10, 15, 21, 6, 10, 15, 21]

/-- Little-endian byte serialization of `n` over `k` bytes. -/
def leBytes (k n : Nat) : List Nat :=
  (List.range k).map fun i => (n >>> (8 * i)) &&& 0xFF

/-- MD5 padding: append `0x80`, zero bytes to 56 mod 64, then the 64-bit
little-endian bit length. -/
def md5Pad (msg : List Nat) : List Nat :=
  let len := msg.length
  let zeros := (56 + 64 - (len + 1) % 64) % 64
  msg ++ [0x80] ++ List.replicate zeros 0 ++ leBytes 8 (len * 8 % 18446744073709551616)

/-- The 32-bit message word `j` (little-endian) of a 64-byte block. -/
def blockWord (block : List Nat) (j : Nat) : Nat :=
  block.getD (4 * j) 0 + 256 * block.getD (4 * j + 1) 0 +
    65536 * block.getD (4 * j + 2) 0 + 16777216 * block.getD (4 * j + 3) 0

/-- One MD5 step (round `i` of 64) on the running state. -/
def md5Step (block : List Nat) (st : Nat × Nat × Nat × Nat) (i : Nat) :
    Nat × Nat × Nat × Nat :=
  let (a, b, c, d) := st
  let f :=
    if i < 16 then (b &&& c) ||| (not32 b &&& d)
    else if i < 32 then (d &&& b) ||| (not32 d &&& c)
    else if i < 48 then b ^^^ c ^^^ d
    else c ^^^ (b ||| not32 d)
  let g :=
    if i < 16 then i
    else if i < 32 then (5 * i + 1) % 16
    else if i < 48 then (3 * i + 5) % 16
    else (7 * i) % 16
  let tmp := add32 (add32 (add32 a f) (md5K.getD i 0)) (blockWord block g)
  (d, add32 b (rotl32 tmp (md5S.getD i 0)), b, c)

/-- Process one 64-byte block: run the 64 steps and add the result to the
incoming state, word-wise modulo `2^32`. -/
def md5ProcessBlock (st : Nat × Nat × Nat × Nat) (block : List Nat) :
    Nat × Nat × Nat × Nat :=
  let (a, b, c, d) := (List.range 64).foldl (md5Step block) st
  (add32 st.1 a, add32 st.2.1 b, add32 st.2.2.1 c, add32 st.2.2.2 d)

/-- The MD5 digest of a byte sequence, as 16 bytes. -/
def md5Bytes (msg : List Nat) : List Nat :=
  let padded := md5Pad msg
  let numBlocks := padded.length / 64
  let init : Nat × Nat × Nat × Nat := (0x67452301, 0xefcdab89, 0x98badcfe, 0x10325476)
  let final := (List.range numBlocks).foldl
    (fun st i => md5ProcessBlock st ((padded.drop (64 * i)).take 64)) init
  leBytes 4 final.1 ++ leBytes 4 final.2.1 ++ leBytes 4 final.2.2.1 ++ leBytes 4 final.2.2.2

/-- Lowercase hexadecimal rendering of a byte sequence. -/
def bytesToHex (bytes : List Nat) : String :=
  ⟨bytes.flatMap fun b => [Nat.digitChar (b / 16 % 16), Nat.digitChar (b % 16)]⟩

/-- `generateCacheHash` from the source: the MD5 hex digest of
`lowercase(countryCode) ++ "-" ++ lowercase(nationality)`. -/
def generateCacheHash (countryCode : String) (nationality : String) : String :=
  let data := strToLower countryCode ++ "-" ++ strToLower nationality
  bytesToHex (md5Bytes (strUtf8 data))

/-!
### Parsing helpers and the iVisa response transform
-/

/-- Whether `pat` occurs as a contiguous run inside `l`
(JS `String.prototype.includes`). -/
def charsContain (pat : List Char) : List Char → Bool
  | [] => pat.isPrefixOf []
  | c :: t => pat.isPrefixOf (c :: t) || charsContain pat t

/-- `s.includes(pat)` on strings. -/
def strIncludes (s pat : String) : Bool := charsContain pat.data s.data

/-- The first maximal digit run of a character list, when one exists
(the capture of the JS regex `/(\d+)/`). -/
def firstDigitRun : List Char → Option (List Char)
  | [] => none
  | c :: t => if c.isDigit then some (c :: t.takeWhile Char.isDigit) else firstDigitRun t

/-- Decimal value of a digit list (JS `parseInt` on an all-digit string). -/
def digitsToNat (ds : List Char) : Nat :=
  ds.foldl (fun n c => n * 10 + (c.toNat - 48)) 0

/-- `parseInt(timeStr.match(/(\d+)/)?.[1] || '0')` from the source: the
first number occurring in the string, or `0`. -/
def firstNumber (s : String) : Nat :=
  match firstDigitRun s.data with
  | some ds => digitsToNat ds
  | none => 0

/-- `parseProcessingTime` from the source: extract the first number and
scale it by the first matching time unit, defaulting to 7 days. -/
def parseProcessingTime (processingTime : String) : Nat :=
  let timeStr := strToLower processingTime
  if strIncludes timeStr "hour" then (firstNumber timeStr + 23) / 24
  else if strIncludes timeStr "day" then firstNumber timeStr
  else if strIncludes timeStr "week" then firstNumber timeStr * 7
  else if strIncludes timeStr "month" then firstNumber timeStr * 30
  else 7

/-- A JS value that can appear in the `cost` field of a provider option:
a number or a string. -/
inductive CostValue where
  | num (q : Rat)
  | str (s : String)
deriving DecidableEq, Repr

/-- The match of the JS regex `/[\d,]+\.?\d*/`: the first maximal run of
digits and commas, then an optional fractional part after a dot. -/
def costMatch : List Char → Option (List Char × List Char)
  | [] => none
  | c :: t =>
    if c.isDigit || c = ',' then
      let run := (c :: t).takeWhile fun d => d.isDigit || d = ','
      let rest := (c :: t).dropWhile fun d => d.isDigit || d = ','
      let frac := match rest with
        | '.' :: r => r.takeWhile Char.isDigit
        | _ => []
      some (run, frac)
    else costMatch t

/-- `parseCost` from the source: numbers pass through; strings are matched
with `/[\d,]+\.?\d*/`, commas are stripped and the rest read as a decimal
(`parseFloat`); no match gives `0`.  (A match consisting only of commas
gives `NaN` in JS; it is rendered as `0` here and is never produced by the
inputs of this development.) -/
def parseCost : CostValue → Rat
  | .num q => q
  | .str s =>
    match costMatch s.data with
    | some (run, frac) =>
      let intDigits := run.filter fun d => d != ','
      (digitsToNat intDigits : Rat) + (digitsToNat frac : Rat) / ((10 : Rat) ^ frac.length)
    | none => 0

/-- One element of `response.data.visaOptions` as the transform reads it:
each field is `none` when absent.  (For the string fields the source uses
JS `||` defaulting, so an empty string is also replaced by the default;
`visaRequired` uses `!== false`; `requirements` is an array, which is
always truthy, so only an absent array is defaulted.) -/
structure RawIVisaOption where
  id : Option String
  visaType : Option String
  name : Option String
  visaRequired : Option Bool
  processingTime : Option String
  cost : Option CostValue
  currency : Option String
  description : Option String
  requirements : Option (List String)
  validity : Option String
deriving DecidableEq, Repr

/-- JS `v || dflt` for an optional string field (absent or empty falls back). -/
def jsOrStr (v : Option String) (dflt : String) : String :=
  match v with
  | some s => if s = "" then dflt else s
  | none => dflt

/-- JS `v || dflt` for the `cost` field (absent, `0` and `""` fall back). -/
def jsOrCost (v : Option CostValue) (dflt : CostValue) : CostValue :=
  match v with
  | some (.num q) => if q = 0 then dflt else .num q
  | some (.str s) => if s = "" then dflt else .str s
  | none => dflt

/-- The map body of `fetchIVisaOptions`: one raw provider option at
position `index` becomes a `VisaOption`. -/
def transformOption (index : Nat) (option : RawIVisaOption) : VisaOption :=
  { id := "ivisa-" ++ jsOrStr option.id (toString index)
    name := jsOrStr option.visaType (jsOrStr option.name "iVisa Option")
    type := .iVisa
    visaRequired := option.visaRequired != some false
    processingTime := jsOrStr option.processingTime "5-7 business days"
    processingTimeDays := parseProcessingTime (jsOrStr option.processingTime "5-7 business days")
    cost := parseCost (jsOrCost option.cost (.str "0"))
    costCurrency := jsOrStr option.currency "USD"
    description := jsOrStr option.description "Visa option from iVisa"
    requirements := (option.requirements).getD ["Valid passport", "Completed application form"]
    validity := jsOrStr option.validity "90 days"
    source := "iVisa"
    priority := 100 + index }

/-- `response.data.visaOptions || []` followed by the indexed map. -/
def transformIVisaOptions (visaOptions : Option (List RawIVisaOption)) : List VisaOption :=
  (visaOptions.getD []).mapIdx transformOption

/-!
### The retrying fetcher
-/

/-- The outcome of one HTTP attempt against the upstream provider, as the
catch block of `fetchIVisaOptions` distinguishes them: a successful
response (carrying `response.data.visaOptions`, possibly absent), an HTTP
error status with its status text (`axiosError.response` present), a
request that got no response (`axiosError.request` present), or a request
that could not be constructed or sent (`axiosError.message`). -/
inductive FetchOutcome where
  | success (visaOptions : Option (List RawIVisaOption))
  | httpError (status : Nat) (statusText : String)
  | noResponse
  | requestError (message : String)
deriving DecidableEq, Repr

/-- Whether an outcome is an HTTP 429 (`axiosError.response?.status === 429`). -/
def is429 : FetchOutcome → Bool
  | .httpError status _ => status == 429
  | _ => false

/-- The observable result of a whole `fetchIVisaOptions` run: the returned
value or thrown error message, the number of upstream attempts made, and
the milliseconds waited before each retry, in order. -/
structure FetchTrace where
  result : Except String (List VisaOption)
  calls : Nat
  delays : List Nat
deriving Repr

/-- The recursion of `fetchIVisaOptions`, unrolled on the remaining retry
budget `MAX_RETRIES - retryCount` so that it is structural.  The upstream
is an oracle giving the outcome of the attempt with a given `retryCount`
(attempt `retryCount` is the `retryCount`-th call).  A recursive call is
made exactly when the outcome is a 429 and the budget is nonzero, which
under the wrapper's invariant is the source's `retryCount < MAX_RETRIES`. -/
def fetchGo (upstream : Nat → FetchOutcome) (retryCount : Nat) : Nat → FetchTrace
  | b + 1 =>
    match upstream retryCount with
    | .success visaOptions => ⟨.ok (transformIVisaOptions visaOptions), 1, []⟩
    | .httpError status statusText =>
      if status = 429 then
        let delay := min (BASE_RETRY_DELAY_MS * 2 ^ retryCount) MAX_RETRY_DELAY_MS
        let rest := fetchGo upstream (retryCount + 1) b
        ⟨rest.result, rest.calls + 1, delay :: rest.delays⟩
      else
        ⟨.error ("API Error: " ++ toString status ++ " - " ++ statusText), 1, []⟩
    | .noResponse => ⟨.error "Network Error: No response received", 1, []⟩
    | .requestError message => ⟨.error ("Request Error: " ++ message), 1, []⟩
  | 0 =>
    match upstream retryCount with
    | .success visaOptions => ⟨.ok (transformIVisaOptions visaOptions), 1, []⟩
    | .httpError status statusText =>
      if status = 429 then
        ⟨.error "Max retries exceeded for rate limiting", 1, []⟩
      else
        ⟨.error ("API Error: " ++ toString status ++ " - " ++ statusText), 1, []⟩
    | .noResponse => ⟨.error "Network Error: No response received", 1, []⟩
    | .requestError message => ⟨.error ("Request Error: " ++ message), 1, []⟩

/-- `fetchIVisaOptions` from the source, as a trace over the upstream
oracle.  The source recurses with `retryCount + 1` while
`retryCount < MAX_RETRIES`; the remaining budget is therefore
`MAX_RETRIES - retryCount`. -/
def fetchIVisaOptions (upstream : Nat → FetchOutcome) (retryCount : Nat := 0) : FetchTrace :=
  fetchGo upstream retryCount (MAX_RETRIES - retryCount)

/-!
### The merge-and-sort step

The source sorts with `Array.prototype.sort` and a three-key numeric
comparator; ECMAScript requires the sort to be stable and, for a
consistent comparator, sorted by it.  A stable sort by a total preorder is
unique, so the step is embedded with `List.insertionSort` (stable) over
the comparator's induced `≤`.
-/

/-- The comparator body of `mergeAndSortVisaOptions`, returning the JS
number whose sign `Array.prototype.sort` consults. -/
def visaCompare (a b : VisaOption) : Rat :=
  if a.processingTimeDays ≠ b.processingTimeDays then
    (a.processingTimeDays : Rat) - (b.processingTimeDays : Rat)
  else if a.cost ≠ b.cost then
    a.cost - b.cost
  else
    (a.priority : Rat) - (b.priority : Rat)

/-- The total preorder induced by the comparator: `a` may be placed before
`b` exactly when the comparator is nonpositive. -/
def visaLe (a b : VisaOption) : Prop := visaCompare a b ≤ 0

/-- Equality on the three sort keys: the comparator returns `0` exactly on
such pairs, so these are the pairs whose relative order stability
preserves. -/
def sameSortKeys (a b : VisaOption) : Prop :=
  a.processingTimeDays = b.processingTimeDays ∧ a.cost = b.cost ∧ a.priority = b.priority

instance : DecidableRel sameSortKeys := fun a b =>
  inferInstanceAs (Decidable (a.processingTimeDays = b.processingTimeDays ∧
    a.cost = b.cost ∧ a.priority = b.priority))

/-- The comparator's `≤` unfolded into the lexicographic three-key order. -/
theorem visaLe_iff (a b : VisaOption) :
    visaLe a b ↔ a.processingTimeDays < b.processingTimeDays ∨
      (a.processingTimeDays = b.processingTimeDays ∧
        (a.cost < b.cost ∨ (a.cost = b.cost ∧ a.priority ≤ b.priority))) := by
  unfold visaLe visaCompare
  split_ifs with h1 h2
  · rw [sub_nonpos, Nat.cast_le]
    constructor
    · intro h
      exact Or.inl (lt_of_le_of_ne h h1)
    · rintro (h | ⟨h, _⟩)
      · exact h.le
      · exact absurd h h1
  · rw [sub_nonpos]
    have e1 : a.processingTimeDays = b.processingTimeDays := not_ne_iff.mp h1
    constructor
    · intro h
      exact Or.inr ⟨e1, Or.inl (lt_of_le_of_ne h h2)⟩
    · rintro (h | ⟨_, h | ⟨h, _⟩⟩)
      · omega
      · exact h.le
      · exact absurd h h2
  · rw [sub_nonpos, Nat.cast_le]
    have e1 : a.processingTimeDays = b.processingTimeDays := not_ne_iff.mp h1
    have e2 : a.cost = b.cost := not_ne_iff.mp h2
    constructor
    · intro h
      exact Or.inr ⟨e1, Or.inr ⟨e2, h⟩⟩
    · rintro (h | ⟨_, h | ⟨_, h⟩⟩)
      · omega
      · exact absurd e2 (ne_of_lt h)
      · exact h

/-- Decidability of `visaLe` through the subtraction-free characterization
(so that concrete sorts evaluate by reduction). -/
instance : DecidableRel visaLe := fun a b =>
  decidable_of_iff
    (a.processingTimeDays < b.processingTimeDays ∨
      (a.processingTimeDays = b.processingTimeDays ∧
        (a.cost < b.cost ∨ (a.cost = b.cost ∧ a.priority ≤ b.priority))))
    (visaLe_iff a b).symm

instance : IsTotal VisaOption visaLe := by
  constructor
  intro a b
  rw [visaLe_iff, visaLe_iff]
  rcases Nat.lt_trichotomy a.processingTimeDays b.processingTimeDays with h | h | h
  · exact Or.inl (Or.inl h)
  · rcases lt_trichotomy a.cost b.cost with h2 | h2 | h2
    · exact Or.inl (Or.inr ⟨h, Or.inl h2⟩)
    · rcases Nat.le_total a.priority b.priority with h3 | h3
      · exact Or.inl (Or.inr ⟨h, Or.inr ⟨h2, h3⟩⟩)
      · exact Or.inr (Or.inr ⟨h.symm, Or.inr ⟨h2.symm, h3⟩⟩)
    · exact Or.inr (Or.inr ⟨h.symm, Or.inl h2⟩)
  · exact Or.inr (Or.inl h)

instance : IsTrans VisaOption visaLe := by
  constructor
  intro a b c hab hbc
  rw [visaLe_iff] at hab hbc ⊢
  rcases hab with h1 | ⟨e1, h1⟩
  · rcases hbc with h2 | ⟨e2, _⟩
    · exact Or.inl (h1.trans h2)
    · exact Or.inl (e2 ▸ h1)
  · rcases hbc with h2 | ⟨e2, h2⟩
    · exact Or.inl (e1 ▸ h2)
    · refine Or.inr ⟨e1.trans e2, ?_⟩
      rcases h1 with h1 | ⟨f1, h1⟩
      · rcases h2 with h2 | ⟨f2, _⟩
        · exact Or.inl (h1.trans h2)
        · exact Or.inl (f2 ▸ h1)
      · rcases h2 with h2 | ⟨f2, h2⟩
        · exact Or.inl (f1 ▸ h2)
        · exact Or.inr ⟨f1.trans f2, h1.trans h2⟩

/-- The combined sequence before sorting: the provider options, plus the
full override table when the destination is Indonesia
(`countryCode.toUpperCase() === 'ID'`). -/
def combinedOptions (iVisaOptions : List VisaOption) (countryCode : String) :
    List VisaOption :=
  if strToUpper countryCode = "ID" then iVisaOptions ++ KITAS_OVERRIDES else iVisaOptions

/-- `mergeAndSortVisaOptions` from the source: copy the provider options,
append the KITAS overrides for Indonesia, and stable-sort by the
three-key comparator. -/
def mergeAndSortVisaOptions (iVisaOptions : List VisaOption) (countryCode : String) :
    List VisaOption :=
  (combinedOptions iVisaOptions countryCode).insertionSort visaLe

/-!
### The request handler

`visaEligibility` is embedded as a pure function of the request and an
environment carrying everything the source reads from the outside world:
the upstream oracle, the cache collection (a map from document id to
record), whether the cache read / write throws (and with what message),
and the current time.  Besides the response it returns the I/O effects it
performed, in order, and the cache store after the call.
-/

/-- The `CachedVisaData` interface of the source (`timestamp` in
milliseconds). -/
structure CachedVisaData where
  data : List VisaOption
  timestamp : Int
  hash : String
deriving DecidableEq, Repr

/-- An incoming request: its HTTP method and the two body fields
(`JSValue.undefined` models an absent field). -/
structure VisaRequest where
  method : String
  countryCode : JSValue
  nationality : JSValue
deriving DecidableEq, Repr

/-- The JSON envelope sent back, together with the HTTP status code.
`none` models an absent JSON field. -/
structure VisaResponse where
  status : Nat
  success : Bool
  message : String
  data : Option (List VisaOption)
  cached : Option Bool
  error : Option String
deriving DecidableEq, Repr

/-- The externally visible side effects of one handler run, in order. -/
inductive Effect where
  | cacheRead (key : String)
  | fetchAttempts (count : Nat)
  | cacheWrite (key : String)
deriving DecidableEq, Repr

/-- The cache collection: document id to stored record. -/
abbrev CacheStore : Type := String → Option CachedVisaData

/-- Everything the handler reads from outside one request. -/
structure HandlerEnv where
  upstream : Nat → FetchOutcome
  store : CacheStore
  readFail : Option String
  writeFail : Option String
  now : Int

/-- The catch-all error envelope of the handler: any thrown message
becomes this HTTP 500 response. -/
def errorResponse (message : String) : VisaResponse :=
  ⟨500, false, "Failed to get visa eligibility options", none, none, some message⟩

/-- The fetch-merge-write tail of the handler (the straight-line code the
source runs on a cache miss or on stale data): fetch with retries, merge
and sort, write the cache, and build the success response; a fetch or
write failure becomes `errorResponse` via the enclosing try/catch. -/
def fetchMergeWrite (countryCode cacheHash : String) (env : HandlerEnv) :
    VisaResponse × List Effect × CacheStore :=
  let t := fetchIVisaOptions env.upstream
  match t.result with
  | .error m =>
    (errorResponse m, [.cacheRead cacheHash, .fetchAttempts t.calls], env.store)
  | .ok iVisaOpts =>
    let mergedOptions := mergeAndSortVisaOptions iVisaOpts countryCode
    let cacheData : CachedVisaData := ⟨mergedOptions, env.now, cacheHash⟩
    match env.writeFail with
    | some m =>
      (errorResponse m,
       [.cacheRead cacheHash, .fetchAttempts t.calls, .cacheWrite cacheHash],
       env.store)
    | none =>
      (⟨200, true, "Visa eligibility options retrieved successfully",
        some mergedOptions, some false, none⟩,
       [.cacheRead cacheHash, .fetchAttempts t.calls, .cacheWrite cacheHash],
       fun k => if k = cacheHash then some cacheData else env.store k)

/-- `visaEligibility` from the source: validation in order, cache lookup,
then `fetchMergeWrite` on a miss or stale record, each failure caught and
converted by the enclosing try/catch into `errorResponse`. -/
def visaEligibility (req : VisaRequest) (env : HandlerEnv) :
    VisaResponse × List Effect × CacheStore :=
  if req.method != "POST" then
    (⟨405, false, "Method not allowed. Use POST.", none, none, some "Method not allowed"⟩,
     [], env.store)
  else if !(req.countryCode.truthy && req.nationality.truthy) then
    (⟨400, false, "Missing required fields: countryCode, nationality", none, none,
      some "Missing required fields"⟩, [], env.store)
  else if !(req.countryCode.isString && req.nationality.isString) then
    (⟨400, false, "Invalid input types. countryCode and nationality must be strings.",
      none, none, some "Invalid input types"⟩, [], env.store)
  else
    let countryCode := (req.countryCode.asString).getD ""
    let nationality := (req.nationality.asString).getD ""
    if countryCode.length != 2 || nationality.length != 2 then
      (⟨400, false, "countryCode and nationality must be 2-character country codes.",
        none, none, some "Invalid country code format"⟩, [], env.store)
    else
      let cacheHash := generateCacheHash countryCode nationality
      match env.readFail with
      | some m => (errorResponse m, [.cacheRead cacheHash], env.store)
      | none =>
        match env.store cacheHash with
        | some cachedData =>
          if isCacheValid cachedData.timestamp env.now then
            (⟨200, true, "Visa eligibility options retrieved from cache",
              some cachedData.data, some true, none⟩,
             [.cacheRead cacheHash], env.store)
          else fetchMergeWrite countryCode cacheHash env
        | none => fetchMergeWrite countryCode cacheHash env

/-!
### Array identity model of `mergeAndSortVisaOptions`

`Array.prototype.sort` sorts in place, so the frame property of the
merge-and-sort step (claim about mutation) is stated over a store of
arrays with explicit identities.  `[...iVisaOptions]` and
`[...allOptions, ...KITAS_OVERRIDES]` allocate fresh arrays; the sort
writes back to the array it receives.
-/

/-- A heap of JS arrays of visa options, addressed by allocation index. -/
abbrev ArrStore : Type := List (List VisaOption)

/-- Allocate a fresh array holding `v`; returns the new store and the
fresh reference. -/
def allocArr (st : ArrStore) (v : List VisaOption) : ArrStore × Nat :=
  (st ++ [v], st.length)

/-- Read the array behind a reference. -/
def readArr (st : ArrStore) (i : Nat) : List VisaOption :=
  st[i]?.getD []

/-- Overwrite the array behind a reference (in-place mutation). -/
def writeArr (st : ArrStore) (i : Nat) (v : List VisaOption) : ArrStore :=
  st.set i v

/-- `mergeAndSortVisaOptions` at the level of array identities:
`let allOptions = [...iVisaOptions]` allocates a copy; for Indonesia
`[...allOptions, ...KITAS_OVERRIDES]` allocates another; `.sort(...)`
mutates only the array it is called on.  Returns the store after the call
and the reference to the returned array. -/
def mergeAndSortVisaOptionsProg (st : ArrStore) (iVisaId kitasId : Nat)
    (countryCode : String) : ArrStore × Nat :=
  let alloc1 := allocArr st (readArr st iVisaId)
  let st1 := alloc1.1
  let allId1 := alloc1.2
  let alloc2 :=
    if strToUpper countryCode = "ID" then
      allocArr st1 (readArr st1 allId1 ++ readArr st1 kitasId)
    else (st1, allId1)
  let st2 := alloc2.1
  let allId2 := alloc2.2
  let sorted := (readArr st2 allId2).insertionSort visaLe
  (writeArr st2 allId2 sorted, allId2)

/-!
### Concrete values used by the example-based claims
-/

/-- The rational 99.99, in reduced constructor form so that concrete
comparisons evaluate by reduction. -/
def ratNinetyNine99 : Rat := ⟨9999, 100, by norm_num, by norm_num⟩

/-- The rational 149.99, in reduced constructor form. -/
def ratOneFortyNine99 : Rat := ⟨14999, 100, by norm_num, by norm_num⟩

theorem ratNinetyNine99_val : ratNinetyNine99 = 99.99 := by
  rw [show (99.99 : Rat) = 9999 / 100 by norm_num]
  rw [show ratNinetyNine99 = Rat.divInt 9999 100 from Rat.mk'_eq_divInt]
  rw [Rat.divInt_eq_div]
  norm_num

theorem ratOneFortyNine99_val : ratOneFortyNine99 = 149.99 := by
  rw [show (149.99 : Rat) = 14999 / 100 by norm_num]
  rw [show ratOneFortyNine99 = Rat.divInt 14999 100 from Rat.mk'_eq_divInt]
  rw [Rat.divInt_eq_div]
  norm_num

/-!
### Claim C5 — cache freshness
-/

/-- Claim C5: `isCacheValid storedAt` returns true iff the elapsed time
`now - storedAt` is strictly less than 24 hours, evaluating nothing but
the two timestamps; a record stored 23 h 59 min ago is fresh and a record
stored 24 h 1 min ago is stale. -/
theorem claim5_cache_freshness :
    ∀ storedAt now : Int,
      (isCacheValid storedAt now = true ↔ now - storedAt < 24 * 60 * 60 * 1000) ∧
      isCacheValid (now - (23 * 60 + 59) * 60 * 1000) now = true ∧
      isCacheValid (now - (24 * 60 + 1) * 60 * 1000) now = false := by
  intro storedAt now
  refine ⟨?_, ?_, ?_⟩
  · simp only [isCacheValid, CACHE_DURATION_HOURS, decide_eq_true_eq]
  · simp only [isCacheValid, CACHE_DURATION_HOURS, decide_eq_true_eq]
    omega
  · simp only [isCacheValid, CACHE_DURATION_HOURS]
    rw [decide_eq_false_iff_not]
    omega

/-!
### Claim C6 — cache key derivation
-/

theorem length_flatMap_two {α : Type} (f g : α → Char) (l : List α) :
    (l.flatMap fun b => [f b, g b]).length = 2 * l.length := by
  induction l with
  | nil => rfl
  | cons x t ih =>
    simp only [List.flatMap_cons, List.length_append, ih, List.length_cons, List.length_nil]
    omega

theorem leBytes_length (k n : Nat) : (leBytes k n).length = k := by
  simp [leBytes]

theorem md5Bytes_length (msg : List Nat) : (md5Bytes msg).length = 16 := by
  unfold md5Bytes
  simp [leBytes_length]

/-- Claim C6: `generateCacheHash` is deterministic and case-insensitive:
it is the MD5 hex digest of `lowercase(destination) ++ "-" ++
lowercase(nationality)`, so any change of letter case in either input
yields the same digest; the digest always has the fixed length 32; and
repeated calls on the same inputs give the same output (the function is
pure, with no randomness). -/
theorem claim6_cache_key_derivation :
    (∀ d d2 n n2 : String, strToLower d = strToLower d2 → strToLower n = strToLower n2 →
      generateCacheHash d n = generateCacheHash d2 n2) ∧
    (∀ d n : String, generateCacheHash d n =
      bytesToHex (md5Bytes (strUtf8 (strToLower d ++ "-" ++ strToLower n)))) ∧
    (∀ d n : String, (generateCacheHash d n).length = 32) ∧
    (∀ d n : String, generateCacheHash d n = generateCacheHash d n) := by
  refine ⟨?_, ?_, ?_, ?_⟩
  · intro d d2 n n2 hd hn
    unfold generateCacheHash
    rw [hd, hn]
  · intro d n
    rfl
  · intro d n
    show (bytesToHex (md5Bytes (strUtf8 (strToLower d ++ "-" ++ strToLower n)))).length = 32
    unfold bytesToHex
    show (List.flatMap _ _).length = 32
    rw [length_flatMap_two, md5Bytes_length]
  · intro d n
    rfl

/-- Witness for C6 at concrete inputs: changing the letter case of
`"ID"`/`"US"` leaves the derived key unchanged. -/
theorem claim6_cache_key_derivation_witness :
    generateCacheHash "ID" "US" = generateCacheHash "id" "uS" :=
  claim6_cache_key_derivation.1 "ID" "id" "US" "uS" rfl rfl

/-!
### Claim C3 — override inclusion
-/

/-- Claim C3: `mergeAndSortVisaOptions providerOptions destination` is a
permutation of `providerOptions ++ KITAS_OVERRIDES` when the destination
equals the override-trigger code `"ID"` compared case-insensitively
(the source compares `countryCode.toUpperCase() === 'ID'`), including
every element of the override table unfiltered; and a permutation of
`providerOptions` alone for every other destination. -/
theorem claim3_override_inclusion :
    ∀ (providerOptions : List VisaOption) (destination : String),
      (strToUpper destination = "ID" →
        (mergeAndSortVisaOptions providerOptions destination).Perm
          (providerOptions ++ KITAS_OVERRIDES)) ∧
      (strToUpper destination ≠ "ID" →
        (mergeAndSortVisaOptions providerOptions destination).Perm providerOptions) := by
  intro providerOptions destination
  constructor
  · intro h
    unfold mergeAndSortVisaOptions combinedOptions
    rw [if_pos h]
    exact List.perm_insertionSort visaLe _
  · intro h
    unfold mergeAndSortVisaOptions combinedOptions
    rw [if_neg h]
    exact List.perm_insertionSort visaLe _

/-- Witness for C3: with the mixed-case destination `"iD"` the overrides
are appended (so the output is a permutation of them), and with `"US"`
they are not. -/
theorem claim3_override_inclusion_witness :
    (mergeAndSortVisaOptions [] "iD").Perm ([] ++ KITAS_OVERRIDES) ∧
    (mergeAndSortVisaOptions [] "US").Perm [] :=
  ⟨(claim3_override_inclusion [] "iD").1 (by decide),
   (claim3_override_inclusion [] "US").2 (by decide)⟩

/-!
### Claim C2 — sortedness, stability, determinism
-/

/-- A 6-day, 149.99-cost provider-style option (the first of the three
options named in the claim's concrete example). -/
def optSixDays14999 : VisaOption :=
  { id := "ivisa-tourist"
    name := "Tourist eVisa"
    type := .iVisa
    visaRequired := true
    processingTime := "6 days"
    processingTimeDays := 6
    cost := ratOneFortyNine99
    costCurrency := "USD"
    description := "Visa option from iVisa"
    requirements := ["Valid passport"]
    validity := "90 days"
    source := "iVisa"
    priority := 100 }

/-- A 6-day, 99.99-cost provider-style option. -/
def optSixDays9999 : VisaOption :=
  { id := "ivisa-express"
    name := "Express eVisa"
    type := .iVisa
    visaRequired := true
    processingTime := "6 days"
    processingTimeDays := 6
    cost := ratNinetyNine99
    costCurrency := "USD"
    description := "Visa option from iVisa"
    requirements := ["Valid passport"]
    validity := "90 days"
    source := "iVisa"
    priority := 101 }

/-- A 15-day, 1500000-cost option (KITAS family-reunion style). -/
def optFifteenDays : VisaOption :=
  { id := "kitas-family"
    name := "KITAS Family Reunion"
    type := .KITAS
    visaRequired := true
    processingTime := "10-20 business days"
    processingTimeDays := 15
    cost := 1500000
    costCurrency := "IDR"
    description := "Family reunion permit for spouses and children of KITAS holders"
    requirements := ["Marriage certificate (for spouses)"]
    validity := "1 year (renewable)"
    source := "Indonesian Immigration"
    priority := 3 }

/-- Claim C2: for every input, `mergeAndSortVisaOptions` is sorted
non-decreasing by the three-key comparator (processing days, then cost
with no currency normalization, then priority, per `visaLe_iff`); options
equal on all three keys keep their relative order from the combined input
(stability); repeated calls on identical input give identical output; and
for the three options with processing days `[6, 6, 15]` and costs
`[149.99, 99.99, 1500000]`, the 99.99-cost option is placed before the
149.99-cost option and the 15-day option last, for every input order. -/
theorem claim2_sort_properties :
    (∀ (l : List VisaOption) (cc : String),
      List.Sorted visaLe (mergeAndSortVisaOptions l cc)) ∧
    (∀ (l : List VisaOption) (cc : String) (c : List VisaOption),
      c.Pairwise sameSortKeys → c.Sublist (combinedOptions l cc) →
      c.Sublist (mergeAndSortVisaOptions l cc)) ∧
    (∀ (l : List VisaOption) (cc : String),
      mergeAndSortVisaOptions l cc = mergeAndSortVisaOptions l cc) ∧
    (∀ p ∈ [[optSixDays14999, optSixDays9999, optFifteenDays],
            [optSixDays14999, optFifteenDays, optSixDays9999],
            [optSixDays9999, optSixDays14999, optFifteenDays],
            [optSixDays9999, optFifteenDays, optSixDays14999],
            [optFifteenDays, optSixDays14999, optSixDays9999],
            [optFifteenDays, optSixDays9999, optSixDays14999]],
      mergeAndSortVisaOptions p "US" = [optSixDays9999, optSixDays14999, optFifteenDays]) := by
  refine ⟨?_, ?_, ?_, ?_⟩
  · intro l cc
    exact List.sorted_insertionSort visaLe (combinedOptions l cc)
  · intro l cc c hkeys hsub
    refine List.sublist_insertionSort ?_ hsub
    refine hkeys.imp ?_
    intro a b hab
    rw [visaLe_iff]
    exact Or.inr ⟨hab.1, Or.inr ⟨hab.2.1, le_of_eq hab.2.2⟩⟩
  · intro l cc
    rfl
  · decide

/-- Witness for C2 at one concrete input order. -/
theorem claim2_sort_properties_witness :
    mergeAndSortVisaOptions [optSixDays14999, optSixDays9999, optFifteenDays] "US" =
      [optSixDays9999, optSixDays14999, optFifteenDays] :=
  claim2_sort_properties.2.2.2 [optSixDays14999, optSixDays9999, optFifteenDays] (by decide)


/-!
### Claim C1 — retry policy of the fetcher
-/

theorem fetchGo_success (u : Nat → FetchOutcome) (rc b : Nat) (v : Option (List RawIVisaOption))
    (h : u rc = .success v) :
    fetchGo u rc b = ⟨.ok (transformIVisaOptions v), 1, []⟩ := by
  cases b <;> (unfold fetchGo; rw [h])

theorem fetchGo_retry (u : Nat → FetchOutcome) (rc b : Nat) (st : String)
    (h : u rc = .httpError 429 st) :
    fetchGo u rc (b + 1) =
      ⟨(fetchGo u (rc + 1) b).result, (fetchGo u (rc + 1) b).calls + 1,
       min (BASE_RETRY_DELAY_MS * 2 ^ rc) MAX_RETRY_DELAY_MS :: (fetchGo u (rc + 1) b).delays⟩ := by
  conv_lhs => unfold fetchGo
  rw [h]
  simp

theorem fetchGo_exhausted (u : Nat → FetchOutcome) (rc : Nat) (st : String)
    (h : u rc = .httpError 429 st) :
    fetchGo u rc 0 = ⟨.error "Max retries exceeded for rate limiting", 1, []⟩ := by
  unfold fetchGo
  rw [h]
  simp

theorem fetchGo_apiError (u : Nat → FetchOutcome) (rc b : Nat) (s : Nat) (st : String)
    (hs : s ≠ 429) (h : u rc = .httpError s st) :
    fetchGo u rc b = ⟨.error ("API Error: " ++ toString s ++ " - " ++ st), 1, []⟩ := by
  cases b <;> (unfold fetchGo; rw [h]; simp [hs])

theorem fetchGo_noResponse (u : Nat → FetchOutcome) (rc b : Nat)
    (h : u rc = .noResponse) :
    fetchGo u rc b = ⟨.error "Network Error: No response received", 1, []⟩ := by
  cases b <;> (unfold fetchGo; rw [h])

theorem fetchGo_requestError (u : Nat → FetchOutcome) (rc b : Nat) (m : String)
    (h : u rc = .requestError m) :
    fetchGo u rc b = ⟨.error ("Request Error: " ++ m), 1, []⟩ := by
  cases b <;> (unfold fetchGo; rw [h])

theorem is429_iff (o : FetchOutcome) :
    is429 o = true ↔ ∃ statusText, o = .httpError 429 statusText := by
  cases o with
  | httpError status statusText =>
    simp only [is429, beq_iff_eq]
    constructor
    · intro h
      exact ⟨statusText, by rw [h]⟩
    · rintro ⟨st, hst⟩
      cases hst
      rfl
  | success visaOptions => simp [is429]
  | noResponse => simp [is429]
  | requestError message => simp [is429]

theorem fetchGo_calls_pos (u : Nat → FetchOutcome) (rc b : Nat) :
    1 ≤ (fetchGo u rc b).calls := by
  cases h : u rc with
  | success v => rw [fetchGo_success u rc b v h]
  | httpError status statusText =>
    by_cases hs : status = 429
    · subst hs
      cases b with
      | zero => rw [fetchGo_exhausted u rc statusText h]
      | succ b =>
        rw [fetchGo_retry u rc b statusText h]
        exact Nat.succ_le_succ (Nat.zero_le _)
    · rw [fetchGo_apiError u rc b status statusText hs h]
  | noResponse => rw [fetchGo_noResponse u rc b h]
  | requestError m => rw [fetchGo_requestError u rc b m h]

/-- Claim C1: `fetchIVisaOptions` retries an attempt iff that attempt
failed with HTTP 429 and fewer than `MAX_RETRIES = 3` retries have
already been made, waiting `min(1000 * 2^retryCount, 10000)` ms before
each retry; against an always-429 upstream it makes exactly 4 attempts
(1 initial + 3 retries) and fails with the error
`"Max retries exceeded for rate limiting"`; against an upstream returning
429 once and then succeeding it makes exactly 2 attempts and returns the
(transformed) success payload; a non-429 failure is never retried. -/
theorem claim1_retry_policy :
    ∀ upstream : Nat → FetchOutcome,
      (∀ retryCount : Nat,
        (1 < (fetchIVisaOptions upstream retryCount).calls ↔
          (is429 (upstream retryCount) = true ∧ retryCount < MAX_RETRIES)) ∧
        (is429 (upstream retryCount) = true → retryCount < MAX_RETRIES →
          (fetchIVisaOptions upstream retryCount).delays.head? =
            some (min (BASE_RETRY_DELAY_MS * 2 ^ retryCount) MAX_RETRY_DELAY_MS))) ∧
      ((∀ n, is429 (upstream n) = true) →
        (fetchIVisaOptions upstream).calls = 4 ∧
        (fetchIVisaOptions upstream).result = .error "Max retries exceeded for rate limiting" ∧
        (fetchIVisaOptions upstream).delays = [1000, 2000, 4000]) ∧
      (∀ raw, is429 (upstream 0) = true → upstream 1 = .success raw →
        (fetchIVisaOptions upstream).calls = 2 ∧
        (fetchIVisaOptions upstream).result = .ok (transformIVisaOptions raw) ∧
        (fetchIVisaOptions upstream).delays = [1000]) ∧
      (∀ retryCount : Nat, is429 (upstream retryCount) = false →
        (fetchIVisaOptions upstream retryCount).calls = 1) := by
  intro upstream
  refine ⟨?_, ?_, ?_, ?_⟩
  · intro retryCount
    constructor
    · unfold fetchIVisaOptions
      cases h : upstream retryCount with
      | success v => simp [fetchGo_success upstream retryCount _ v h, is429]
      | httpError status statusText =>
        by_cases hs : status = 429
        · subst hs
          by_cases hlt : retryCount < MAX_RETRIES
          · obtain ⟨b, hb⟩ : ∃ b, MAX_RETRIES - retryCount = b + 1 :=
              ⟨MAX_RETRIES - retryCount - 1, by omega⟩
            rw [hb, fetchGo_retry upstream retryCount b statusText h]
            have hpos := fetchGo_calls_pos upstream (retryCount + 1) b
            simp only [is429, beq_self_eq_true, true_and, iff_true, hlt]
            omega
          · have hz : MAX_RETRIES - retryCount = 0 := by omega
            rw [hz, fetchGo_exhausted upstream retryCount statusText h]
            simp [hlt]
        · rw [fetchGo_apiError upstream retryCount _ status statusText hs h]
          simp [is429, hs]
      | noResponse =>
        rw [fetchGo_noResponse upstream retryCount _ h]
        simp [is429]
      | requestError m =>
        rw [fetchGo_requestError upstream retryCount _ m h]
        simp [is429]
    · intro h429 hlt
      obtain ⟨st, hst⟩ := (is429_iff _).mp h429
      obtain ⟨b, hb⟩ : ∃ b, MAX_RETRIES - retryCount = b + 1 :=
        ⟨MAX_RETRIES - retryCount - 1, by omega⟩
      unfold fetchIVisaOptions
      rw [hb, fetchGo_retry upstream retryCount b st hst]
      rfl
  · intro hall
    obtain ⟨st0, h0⟩ := (is429_iff _).mp (hall 0)
    obtain ⟨st1, h1⟩ := (is429_iff _).mp (hall 1)
    obtain ⟨st2, h2⟩ := (is429_iff _).mp (hall 2)
    obtain ⟨st3, h3⟩ := (is429_iff _).mp (hall 3)
    have e0 := fetchGo_retry upstream 0 2 st0 h0
    have e1 := fetchGo_retry upstream 1 1 st1 h1
    have e2 := fetchGo_retry upstream 2 0 st2 h2
    have e3 := fetchGo_exhausted upstream 3 st3 h3
    unfold fetchIVisaOptions
    have hbudget : MAX_RETRIES - 0 = 3 := rfl
    rw [hbudget, show (3 : Nat) = 2 + 1 from rfl, e0, e1, e2, e3]
    refine ⟨rfl, rfl, ?_⟩
    simp [BASE_RETRY_DELAY_MS, MAX_RETRY_DELAY_MS]
  · intro raw h429 h1
    obtain ⟨st0, h0⟩ := (is429_iff _).mp h429
    have e0 := fetchGo_retry upstream 0 2 st0 h0
    have e1 := fetchGo_success upstream 1 2 raw h1
    unfold fetchIVisaOptions
    have hbudget : MAX_RETRIES - 0 = 3 := rfl
    rw [hbudget, show (3 : Nat) = 2 + 1 from rfl, e0, e1]
    refine ⟨rfl, rfl, ?_⟩
    simp [BASE_RETRY_DELAY_MS, MAX_RETRY_DELAY_MS]
  · intro retryCount hne
    unfold fetchIVisaOptions
    cases h : upstream retryCount with
    | success v => rw [fetchGo_success upstream retryCount _ v h]
    | httpError status statusText =>
      rw [h] at hne
      have hs : status ≠ 429 := by
        simpa [is429] using hne
      rw [fetchGo_apiError upstream retryCount _ status statusText hs h]
    | noResponse => rw [fetchGo_noResponse upstream retryCount _ h]
    | requestError m => rw [fetchGo_requestError upstream retryCount _ m h]

/-- Witness for C1: an upstream that always answers 429 is called 4
times, with waits of 1000, 2000 and 4000 ms, and the run fails with the
rate-limit message; a one-shot 500 failure gives a single attempt. -/
theorem claim1_retry_policy_witness :
    (fetchIVisaOptions (fun _ => .httpError 429 "Too Many Requests")).calls = 4 ∧
    (fetchIVisaOptions (fun _ => .httpError 429 "Too Many Requests")).result =
      .error "Max retries exceeded for rate limiting" ∧
    (fetchIVisaOptions (fun _ => .httpError 429 "Too Many Requests")).delays =
      [1000, 2000, 4000] ∧
    (fetchIVisaOptions (fun _ => .httpError 500 "Server Error")).calls = 1 := by
  refine ⟨?_, ?_, ?_, ?_⟩
  · exact ((claim1_retry_policy (fun _ => .httpError 429 "Too Many Requests")).2.1
      (fun n => rfl)).1
  · exact ((claim1_retry_policy (fun _ => .httpError 429 "Too Many Requests")).2.1
      (fun n => rfl)).2.1
  · exact ((claim1_retry_policy (fun _ => .httpError 429 "Too Many Requests")).2.1
      (fun n => rfl)).2.2
  · exact (claim1_retry_policy (fun _ => .httpError 500 "Server Error")).2.2.2 0 rfl

/-!
### Claim C10 — no mutation of inputs by the merge-and-sort step
-/

theorem readArr_append_lt (st : ArrStore) (v : List VisaOption) (i : Nat) (h : i < st.length) :
    readArr (st ++ [v]) i = readArr st i := by
  unfold readArr
  rw [List.getElem?_append_left h]

theorem readArr_append_self (st : ArrStore) (v : List VisaOption) :
    readArr (st ++ [v]) st.length = v := by
  unfold readArr
  rw [List.getElem?_concat_length]
  rfl

theorem readArr_set_ne (st : ArrStore) (i j : Nat) (v : List VisaOption) (h : j ≠ i) :
    readArr (st.set j v) i = readArr st i := by
  unfold readArr
  rw [List.getElem?_set_ne h]

theorem readArr_set_self (st : ArrStore) (j : Nat) (v : List VisaOption) (h : j < st.length) :
    readArr (st.set j v) j = v := by
  unfold readArr
  rw [List.getElem?_set_eq_of_lt v h]
  rfl

/-- Claim C10: `mergeAndSortVisaOptions` does not mutate its inputs — it
copies the provider options into a fresh array before the in-place sort,
so after a call the array holding the caller's `providerOptions` and the
array holding the static `KITAS_OVERRIDES` table are unchanged element
for element, while the returned (fresh) array holds exactly the pure
merge-and-sort result. -/
theorem claim10_no_mutation :
    ∀ (st : ArrStore) (iVisaId kitasId : Nat) (countryCode : String),
      iVisaId < st.length → kitasId < st.length →
      readArr (mergeAndSortVisaOptionsProg st iVisaId kitasId countryCode).1 iVisaId =
        readArr st iVisaId ∧
      readArr (mergeAndSortVisaOptionsProg st iVisaId kitasId countryCode).1 kitasId =
        readArr st kitasId ∧
      (readArr st kitasId = KITAS_OVERRIDES →
        readArr (mergeAndSortVisaOptionsProg st iVisaId kitasId countryCode).1
            (mergeAndSortVisaOptionsProg st iVisaId kitasId countryCode).2 =
          mergeAndSortVisaOptions (readArr st iVisaId) countryCode) := by
  intro st iVisaId kitasId countryCode hi hk
  have hlen1 : (st ++ [readArr st iVisaId]).length = st.length + 1 := by
    simp
  by_cases hid : strToUpper countryCode = "ID"
  · have hprog : mergeAndSortVisaOptionsProg st iVisaId kitasId countryCode =
        (((st ++ [readArr st iVisaId]) ++
            [readArr (st ++ [readArr st iVisaId]) st.length ++
             readArr (st ++ [readArr st iVisaId]) kitasId]).set (st ++ [readArr st iVisaId]).length
          ((readArr ((st ++ [readArr st iVisaId]) ++
            [readArr (st ++ [readArr st iVisaId]) st.length ++
             readArr (st ++ [readArr st iVisaId]) kitasId]) (st ++ [readArr st iVisaId]).length).insertionSort visaLe),
         (st ++ [readArr st iVisaId]).length) := by
      simp only [mergeAndSortVisaOptionsProg, allocArr, writeArr, hid, if_pos]
    have hne1 : (st ++ [readArr st iVisaId]).length ≠ iVisaId := by
      omega
    have hne2 : (st ++ [readArr st iVisaId]).length ≠ kitasId := by
      omega
    have hlt1 : iVisaId < (st ++ [readArr st iVisaId]).length := by
      omega
    have hlt2 : kitasId < (st ++ [readArr st iVisaId]).length := by
      omega
    have hltset : (st ++ [readArr st iVisaId]).length <
        ((st ++ [readArr st iVisaId]) ++
          [readArr (st ++ [readArr st iVisaId]) st.length ++
           readArr (st ++ [readArr st iVisaId]) kitasId]).length := by
      simp
    rw [hprog]
    refine ⟨?_, ?_, ?_⟩
    · rw [readArr_set_ne _ _ _ _ hne1, readArr_append_lt _ _ _ hlt1,
        readArr_append_lt _ _ _ hi]
    · rw [readArr_set_ne _ _ _ _ hne2, readArr_append_lt _ _ _ hlt2,
        readArr_append_lt _ _ _ hk]
    · intro hko
      rw [readArr_set_self _ _ _ hltset, readArr_append_self, readArr_append_self,
        readArr_append_lt _ _ _ hk, hko]
      unfold mergeAndSortVisaOptions combinedOptions
      rw [if_pos hid]
  · have hprog : mergeAndSortVisaOptionsProg st iVisaId kitasId countryCode =
        ((st ++ [readArr st iVisaId]).set st.length
          ((readArr (st ++ [readArr st iVisaId]) st.length).insertionSort visaLe),
         st.length) := by
      simp only [mergeAndSortVisaOptionsProg, allocArr, writeArr, if_neg hid]
    have hltset : st.length < (st ++ [readArr st iVisaId]).length := by
      omega
    rw [hprog]
    refine ⟨?_, ?_, ?_⟩
    · rw [readArr_set_ne _ _ _ _ (by omega), readArr_append_lt _ _ _ hi]
    · rw [readArr_set_ne _ _ _ _ (by omega), readArr_append_lt _ _ _ hk]
    · intro hko
      rw [readArr_set_self _ _ _ hltset, readArr_append_self]
      unfold mergeAndSortVisaOptions combinedOptions
      rw [if_neg hid]

/-- Witness for C10 on a concrete two-array store: the provider array and
the override array are untouched and the fresh result array holds the
sorted merge. -/
theorem claim10_no_mutation_witness :
    readArr (mergeAndSortVisaOptionsProg [[optSixDays14999], KITAS_OVERRIDES] 0 1 "ID").1 0 =
      [optSixDays14999] ∧
    readArr (mergeAndSortVisaOptionsProg [[optSixDays14999], KITAS_OVERRIDES] 0 1 "ID").1 1 =
      KITAS_OVERRIDES ∧
    readArr (mergeAndSortVisaOptionsProg [[optSixDays14999], KITAS_OVERRIDES] 0 1 "ID").1
        (mergeAndSortVisaOptionsProg [[optSixDays14999], KITAS_OVERRIDES] 0 1 "ID").2 =
      mergeAndSortVisaOptions [optSixDays14999] "ID" := by
  have h := claim10_no_mutation [[optSixDays14999], KITAS_OVERRIDES] 0 1 "ID"
    (by decide) (by decide)
  exact ⟨h.1, h.2.1, h.2.2 (by decide)⟩

/-!
### Claim C7 — validation order
-/

/-- Modelled from the claim's wording (C7 / spec section 4.5): validation
rules in order — non-POST method; a missing field; a non-string field; a
field whose length is not exactly 2 — each yielding the corresponding
status and error string.  Used to compare the claimed rules with the
embedded handler. -/
def claimedValidationError (method : String) (countryCode nationality : JSValue) :
    Option (Nat × String) :=
  if method ≠ "POST" then some (405, "Method not allowed")
  else if countryCode = .undefined ∨ nationality = .undefined then
    some (400, "Missing required fields")
  else if ¬(countryCode.isString = true ∧ nationality.isString = true) then
    some (400, "Invalid input types")
  else if (countryCode.asString.getD "").length ≠ 2 ∨
      (nationality.asString.getD "").length ≠ 2 then
    some (400, "Invalid country code format")
  else none

def probeEnv : HandlerEnv :=
  { upstream := fun _ => .noResponse, store := fun _ => none,
    readFail := none, writeFail := none, now := 0 }

/-- Counterexample for C7 as stated: with `countryCode` the present string
`""` (not missing, a string, of length 0 ≠ 2), the claimed rule order
predicts `"Invalid country code format"`, but the handler's falsy-check
(`!countryCode`) fires first and returns `"Missing required fields"`. -/
theorem claim7_counterexample :
    claimedValidationError "POST" (.str "") (.str "US") =
      some (400, "Invalid country code format") ∧
    (visaEligibility ⟨"POST", .str "", .str "US"⟩ probeEnv).1.error =
      some "Missing required fields" ∧
    (visaEligibility ⟨"POST", .str "", .str "US"⟩ probeEnv).1.status = 400 ∧
    some "Missing required fields" ≠ some "Invalid country code format" := by
  refine ⟨by decide, by decide, by decide, by decide⟩

/-- Claim C7 as amended: the handler applies the validation rules in
order, stopping at the first violated rule before any cache read,
upstream call, or cache write: non-POST yields 405 `"Method not allowed"`;
a falsy field (missing, empty string, `0`, `false`, or `null`) yields 400
`"Missing required fields"`; a truthy non-string field yields 400
`"Invalid input types"`; a non-empty string field whose length is not
exactly 2 yields 400 `"Invalid country code format"`. -/
theorem claim7_validation_order :
    ∀ (req : VisaRequest) (env : HandlerEnv),
      (req.method ≠ "POST" →
        (visaEligibility req env).1 =
          ⟨405, false, "Method not allowed. Use POST.", none, none, some "Method not allowed"⟩ ∧
        (visaEligibility req env).2.1 = []) ∧
      (req.method = "POST" →
        (req.countryCode.truthy = false ∨ req.nationality.truthy = false) →
        (visaEligibility req env).1 =
          ⟨400, false, "Missing required fields: countryCode, nationality", none, none,
            some "Missing required fields"⟩ ∧
        (visaEligibility req env).2.1 = []) ∧
      (req.method = "POST" →
        req.countryCode.truthy = true → req.nationality.truthy = true →
        (req.countryCode.isString = false ∨ req.nationality.isString = false) →
        (visaEligibility req env).1 =
          ⟨400, false, "Invalid input types. countryCode and nationality must be strings.",
            none, none, some "Invalid input types"⟩ ∧
        (visaEligibility req env).2.1 = []) ∧
      (∀ s1 s2 : String, req.method = "POST" →
        req.countryCode = .str s1 → req.nationality = .str s2 →
        s1 ≠ "" → s2 ≠ "" → (s1.length ≠ 2 ∨ s2.length ≠ 2) →
        (visaEligibility req env).1 =
          ⟨400, false, "countryCode and nationality must be 2-character country codes.",
            none, none, some "Invalid country code format"⟩ ∧
        (visaEligibility req env).2.1 = []) := by
  intro req env
  refine ⟨?_, ?_, ?_, ?_⟩
  · intro h
    constructor <;> simp [visaEligibility, bne_iff_ne, h]
  · intro hm htr
    rcases htr with h | h <;>
      constructor <;> simp [visaEligibility, bne_iff_ne, hm, h]
  · intro hm ht1 ht2 hstr
    rcases hstr with h | h <;>
      constructor <;> simp [visaEligibility, bne_iff_ne, hm, ht1, ht2, h]
  · intro s1 s2 hm hc1 hc2 hne1 hne2 hlen
    rcases hlen with h | h <;>
      constructor <;>
        simp [visaEligibility, bne_iff_ne, hm, hc1, hc2, hne1, hne2, h,
          JSValue.truthy, JSValue.isString, JSValue.asString]

/-- Witness for C7 (amended): a GET request is rejected with 405 before
any effect. -/
theorem claim7_validation_order_witness :
    (visaEligibility ⟨"GET", .str "ID", .str "US"⟩ probeEnv).1 =
      ⟨405, false, "Method not allowed. Use POST.", none, none, some "Method not allowed"⟩ ∧
    (visaEligibility ⟨"GET", .str "ID", .str "US"⟩ probeEnv).2.1 = [] :=
  (claim7_validation_order ⟨"GET", .str "ID", .str "US"⟩ probeEnv).1 (by decide)

/-!
### Claim C9 — shape of validated inputs
-/

/-- Whether a string consists of exactly 2 ASCII letters. -/
def isTwoAsciiLetters (s : String) : Bool :=
  s.length == 2 && s.data.all fun c => c.isAlpha

/-- Counterexample for C9 as stated: the request
`{countryCode: "12", nationality: "34"}` passes validation and reaches
cache-key derivation and fetching (the run performs an upstream attempt),
yet `"12"` does not consist of 2 ASCII letters — the handler checks only
type and length, not letter-hood. -/
theorem claim9_counterexample :
    Effect.fetchAttempts 1 ∈ (visaEligibility ⟨"POST", .str "12", .str "34"⟩ probeEnv).2.1 ∧
    isTwoAsciiLetters "12" = false := by
  refine ⟨by decide, by decide⟩

/-- Claim C9 as amended: every request whose handler run performs any
effect (equivalently, that passes validation and reaches cache-key
derivation and fetching) has both body fields equal to strings of length
exactly 2 — but not necessarily ASCII letters. -/
theorem claim9_validated_inputs :
    ∀ (req : VisaRequest) (env : HandlerEnv),
      (visaEligibility req env).2.1 ≠ [] →
      ∃ s1 s2 : String, req.countryCode = .str s1 ∧ req.nationality = .str s2 ∧
        s1.length = 2 ∧ s2.length = 2 := by
  intro req env hne
  by_cases hm : req.method = "POST"
  · by_cases ht1 : req.countryCode.truthy = true
    · by_cases ht2 : req.nationality.truthy = true
      · cases hc1 : req.countryCode with
        | str s1 =>
          rw [hc1] at ht1
          cases hc2 : req.nationality with
          | str s2 =>
            rw [hc2] at ht2
            by_cases hl1 : s1.length = 2
            · by_cases hl2 : s2.length = 2
              · exact ⟨s1, s2, rfl, rfl, hl1, hl2⟩
              · exact absurd (by simp [visaEligibility, bne_iff_ne, hm, ht1, ht2,
                  hc1, hc2, hl2, JSValue.isString, JSValue.asString]) hne
            · exact absurd (by simp [visaEligibility, bne_iff_ne, hm, ht1, ht2,
                hc1, hc2, hl1, JSValue.isString, JSValue.asString]) hne
          | undefined =>
            rw [hc2] at ht2
            exact absurd ht2 (by decide)
          | null =>
            rw [hc2] at ht2
            exact absurd ht2 (by decide)
          | bool b =>
            rw [hc2] at ht2
            exact absurd (by simp [visaEligibility, bne_iff_ne, hm, ht1, ht2,
              hc1, hc2, JSValue.isString]) hne
          | num q =>
            rw [hc2] at ht2
            exact absurd (by simp [visaEligibility, bne_iff_ne, hm, ht1, ht2,
              hc1, hc2, JSValue.isString]) hne
        | undefined =>
          rw [hc1] at ht1
          exact absurd ht1 (by decide)
        | null =>
          rw [hc1] at ht1
          exact absurd ht1 (by decide)
        | bool b =>
          rw [hc1] at ht1
          exact absurd (by simp [visaEligibility, bne_iff_ne, hm, ht1, ht2, hc1,
            JSValue.isString]) hne
        | num q =>
          rw [hc1] at ht1
          exact absurd (by simp [visaEligibility, bne_iff_ne, hm, ht1, ht2, hc1,
            JSValue.isString]) hne
      · have ht2f : req.nationality.truthy = false := by
          simpa using ht2
        exact absurd (by simp [visaEligibility, bne_iff_ne, hm, ht2f]) hne
    · have ht1f : req.countryCode.truthy = false := by
        simpa using ht1
      exact absurd (by simp [visaEligibility, bne_iff_ne, hm, ht1f]) hne
  · exact absurd (by simp [visaEligibility, bne_iff_ne, hm]) hne

/-- Witness for C9 (amended) at a concrete effectful run. -/
theorem claim9_validated_inputs_witness :
    ∃ s1 s2 : String,
      (⟨"POST", .str "US", .str "ID"⟩ : VisaRequest).countryCode = .str s1 ∧
      (⟨"POST", .str "US", .str "ID"⟩ : VisaRequest).nationality = .str s2 ∧
      s1.length = 2 ∧ s2.length = 2 :=
  claim9_validated_inputs ⟨"POST", .str "US", .str "ID"⟩ probeEnv (by decide)

/-!
### Claim C4 — error envelope
-/

theorem fetchGo_error_shape (u : Nat → FetchOutcome) :
    ∀ (b rc : Nat) (e : String), (fetchGo u rc b).result = .error e →
      (∃ s stx, s ≠ 429 ∧ e = "API Error: " ++ toString s ++ " - " ++ stx) ∨
      e = "Network Error: No response received" ∨
      (∃ d, e = "Request Error: " ++ d) ∨
      e = "Max retries exceeded for rate limiting" := by
  intro b
  induction b with
  | zero =>
    intro rc e he
    cases h : u rc with
    | success v =>
      rw [fetchGo_success u rc 0 v h] at he
      exact absurd he (by simp)
    | httpError status statusText =>
      by_cases hs : status = 429
      · subst hs
        rw [fetchGo_exhausted u rc statusText h] at he
        have : "Max retries exceeded for rate limiting" = e := by
          simpa using he
        exact Or.inr (Or.inr (Or.inr this.symm))
      · rw [fetchGo_apiError u rc 0 status statusText hs h] at he
        have : "API Error: " ++ toString status ++ " - " ++ statusText = e := by
          simpa using he
        exact Or.inl ⟨status, statusText, hs, this.symm⟩
    | noResponse =>
      rw [fetchGo_noResponse u rc 0 h] at he
      have : "Network Error: No response received" = e := by
        simpa using he
      exact Or.inr (Or.inl this.symm)
    | requestError m =>
      rw [fetchGo_requestError u rc 0 m h] at he
      have : "Request Error: " ++ m = e := by
        simpa using he
      exact Or.inr (Or.inr (Or.inl ⟨m, this.symm⟩))
  | succ b ih =>
    intro rc e he
    cases h : u rc with
    | success v =>
      rw [fetchGo_success u rc (b + 1) v h] at he
      exact absurd he (by simp)
    | httpError status statusText =>
      by_cases hs : status = 429
      · subst hs
        rw [fetchGo_retry u rc b statusText h] at he
        exact ih (rc + 1) e he
      · rw [fetchGo_apiError u rc (b + 1) status statusText hs h] at he
        have : "API Error: " ++ toString status ++ " - " ++ statusText = e := by
          simpa using he
        exact Or.inl ⟨status, statusText, hs, this.symm⟩
    | noResponse =>
      rw [fetchGo_noResponse u rc (b + 1) h] at he
      have : "Network Error: No response received" = e := by
        simpa using he
      exact Or.inr (Or.inl this.symm)
    | requestError m =>
      rw [fetchGo_requestError u rc (b + 1) m h] at he
      have : "Request Error: " ++ m = e := by
        simpa using he
      exact Or.inr (Or.inr (Or.inl ⟨m, this.symm⟩))

theorem fetchIVisaOptions_error_shape (u : Nat → FetchOutcome) (e : String)
    (h : (fetchIVisaOptions u).result = .error e) :
    (∃ s stx, s ≠ 429 ∧ e = "API Error: " ++ toString s ++ " - " ++ stx) ∨
    e = "Network Error: No response received" ∨
    (∃ d, e = "Request Error: " ++ d) ∨
    e = "Max retries exceeded for rate limiting" :=
  fetchGo_error_shape u 3 0 e h

theorem fetchMergeWrite_c4 (countryCode cacheHash : String) (env : HandlerEnv) :
    ((fetchMergeWrite countryCode cacheHash env).1.status = 500 →
      (fetchMergeWrite countryCode cacheHash env).1.success = false ∧
      (fetchMergeWrite countryCode cacheHash env).1.data = none ∧
      (fetchMergeWrite countryCode cacheHash env).1.cached = none ∧
      (fetchMergeWrite countryCode cacheHash env).1.message =
        "Failed to get visa eligibility options" ∧
      ∃ e, (fetchMergeWrite countryCode cacheHash env).1.error = some e ∧
        ((∃ s stx, s ≠ 429 ∧ e = "API Error: " ++ toString s ++ " - " ++ stx) ∨
         e = "Network Error: No response received" ∨
         (∃ d, e = "Request Error: " ++ d) ∨
         e = "Max retries exceeded for rate limiting" ∨
         env.readFail = some e ∨ env.writeFail = some e)) ∧
    ((fetchMergeWrite countryCode cacheHash env).1.status = 200 ∨
      (fetchMergeWrite countryCode cacheHash env).1.status = 500) ∧
    (∀ m k, env.writeFail = some m →
      Effect.cacheWrite k ∈ (fetchMergeWrite countryCode cacheHash env).2.1 →
      (fetchMergeWrite countryCode cacheHash env).1 = errorResponse m) := by
  rcases hfr : (fetchIVisaOptions env.upstream).result with e | opts
  · have hr : fetchMergeWrite countryCode cacheHash env =
        (errorResponse e,
         [.cacheRead cacheHash, .fetchAttempts (fetchIVisaOptions env.upstream).calls],
         env.store) := by
      simp [fetchMergeWrite, hfr]
    rw [hr]
    refine ⟨?_, ?_, ?_⟩
    · intro hst
      refine ⟨rfl, rfl, rfl, rfl, e, rfl, ?_⟩
      rcases fetchIVisaOptions_error_shape env.upstream e hfr with h | h | h | h
      · exact Or.inl h
      · exact Or.inr (Or.inl h)
      · exact Or.inr (Or.inr (Or.inl h))
      · exact Or.inr (Or.inr (Or.inr (Or.inl h)))
    · exact Or.inr rfl
    · intro m k hwf hmem
      exact absurd hmem (by simp)
  · rcases hwf : env.writeFail with _ | m
    · have hr : fetchMergeWrite countryCode cacheHash env =
          (⟨200, true, "Visa eligibility options retrieved successfully",
            some (mergeAndSortVisaOptions opts countryCode), some false, none⟩,
           [.cacheRead cacheHash, .fetchAttempts (fetchIVisaOptions env.upstream).calls,
            .cacheWrite cacheHash],
           fun k => if k = cacheHash then
             some ⟨mergeAndSortVisaOptions opts countryCode, env.now, cacheHash⟩
           else env.store k) := by
        simp [fetchMergeWrite, hfr, hwf]
      rw [hr]
      refine ⟨?_, ?_, ?_⟩
      · intro hst
        simp at hst
      · exact Or.inl rfl
      · intro m k hwf2 hmem
        exact absurd hwf2 (by simp)
    · have hr : fetchMergeWrite countryCode cacheHash env =
          (errorResponse m,
           [.cacheRead cacheHash, .fetchAttempts (fetchIVisaOptions env.upstream).calls,
            .cacheWrite cacheHash],
           env.store) := by
        simp [fetchMergeWrite, hfr, hwf]
      rw [hr]
      refine ⟨?_, ?_, ?_⟩
      · intro hst
        exact ⟨rfl, rfl, rfl, rfl, m, rfl,
          Or.inr (Or.inr (Or.inr (Or.inr (Or.inr rfl))))⟩
      · exact Or.inr rfl
      · intro m2 k hwf2 hmem
        have hm : m = m2 := by
          simpa using hwf2
        subst hm
        rfl

/-- Claim C4: every failure of the fetch-merge-cache pipeline is caught at
the handler and returned as an HTTP 500 JSON envelope
`{success: false, message, error}` with no data (no raw exception crosses
the boundary — every run produces a response with status 200, 400, 405 or
500), where the error is one of `"API Error: <status> - <statusText>"`
(non-429 upstream status), `"Network Error: No response received"`,
`"Request Error: <detail>"`, `"Max retries exceeded for rate limiting"`,
or the persistence-layer message when the cache read or write throws; and
when the cache write fails the fetched data is not returned. -/
theorem claim4_error_envelope :
    ∀ (req : VisaRequest) (env : HandlerEnv),
      ((visaEligibility req env).1.status = 500 →
        (visaEligibility req env).1.success = false ∧
        (visaEligibility req env).1.data = none ∧
        (visaEligibility req env).1.cached = none ∧
        (visaEligibility req env).1.message = "Failed to get visa eligibility options" ∧
        ∃ e, (visaEligibility req env).1.error = some e ∧
          ((∃ s stx, s ≠ 429 ∧ e = "API Error: " ++ toString s ++ " - " ++ stx) ∨
           e = "Network Error: No response received" ∨
           (∃ d, e = "Request Error: " ++ d) ∨
           e = "Max retries exceeded for rate limiting" ∨
           env.readFail = some e ∨ env.writeFail = some e)) ∧
      ((visaEligibility req env).1.status = 200 ∨ (visaEligibility req env).1.status = 400 ∨
        (visaEligibility req env).1.status = 405 ∨ (visaEligibility req env).1.status = 500) ∧
      (∀ m k, env.writeFail = some m →
        Effect.cacheWrite k ∈ (visaEligibility req env).2.1 →
        (visaEligibility req env).1 = errorResponse m) := by
  intro req env
  by_cases hb1 : (req.method != "POST") = true
  · refine ⟨?_, ?_, ?_⟩ <;> simp [visaEligibility, hb1]
  · have hb1f : (req.method != "POST") = false := by
      simpa using hb1
    by_cases hb2 : (!(req.countryCode.truthy && req.nationality.truthy)) = true
    · refine ⟨?_, ?_, ?_⟩ <;> simp [visaEligibility, hb1f, hb2]
    · have hb2f : (!(req.countryCode.truthy && req.nationality.truthy)) = false := by
        simpa using hb2
      by_cases hb3 : (!(req.countryCode.isString && req.nationality.isString)) = true
      · refine ⟨?_, ?_, ?_⟩ <;> simp [visaEligibility, hb1f, hb2f, hb3]
      · have hb3f : (!(req.countryCode.isString && req.nationality.isString)) = false := by
          simpa using hb3
        by_cases hb4 : (((req.countryCode.asString).getD "").length != 2 ||
            ((req.nationality.asString).getD "").length != 2) = true
        · refine ⟨?_, ?_, ?_⟩ <;> simp [visaEligibility, hb1f, hb2f, hb3f, hb4]
        · have hb4f : (((req.countryCode.asString).getD "").length != 2 ||
              ((req.nationality.asString).getD "").length != 2) = false := by
            simpa using hb4
          rcases hrf : env.readFail with _ | m
          · rcases hst : env.store (generateCacheHash ((req.countryCode.asString).getD "")
                ((req.nationality.asString).getD "")) with _ | cd
            · have hrun : visaEligibility req env =
                  fetchMergeWrite ((req.countryCode.asString).getD "")
                    (generateCacheHash ((req.countryCode.asString).getD "")
                      ((req.nationality.asString).getD "")) env := by
                simp [visaEligibility, hb1f, hb2f, hb3f, hb4f, hrf, hst]
              rw [hrun]
              have hfm := fetchMergeWrite_c4 ((req.countryCode.asString).getD "")
                (generateCacheHash ((req.countryCode.asString).getD "")
                  ((req.nationality.asString).getD "")) env
              rw [hrf] at hfm
              exact ⟨hfm.1, Or.imp id (fun h => Or.inr (Or.inr h)) hfm.2.1, hfm.2.2⟩
            · by_cases hv : isCacheValid cd.timestamp env.now = true
              · refine ⟨?_, ?_, ?_⟩ <;>
                  simp [visaEligibility, hb1f, hb2f, hb3f, hb4f, hrf, hst, hv]
              · have hvf : isCacheValid cd.timestamp env.now = false := by
                  simpa using hv
                have hrun : visaEligibility req env =
                    fetchMergeWrite ((req.countryCode.asString).getD "")
                      (generateCacheHash ((req.countryCode.asString).getD "")
                        ((req.nationality.asString).getD "")) env := by
                  simp [visaEligibility, hb1f, hb2f, hb3f, hb4f, hrf, hst, hvf]
                rw [hrun]
                have hfm := fetchMergeWrite_c4 ((req.countryCode.asString).getD "")
                  (generateCacheHash ((req.countryCode.asString).getD "")
                    ((req.nationality.asString).getD "")) env
                rw [hrf] at hfm
                exact ⟨hfm.1, Or.imp id (fun h => Or.inr (Or.inr h)) hfm.2.1, hfm.2.2⟩
          · have hrun : visaEligibility req env =
                (errorResponse m,
                 [Effect.cacheRead (generateCacheHash ((req.countryCode.asString).getD "")
                    ((req.nationality.asString).getD ""))],
                 env.store) := by
              simp [visaEligibility, hb1f, hb2f, hb3f, hb4f, hrf]
            rw [hrun]
            refine ⟨?_, ?_, ?_⟩
            · intro hst
              exact ⟨rfl, rfl, rfl, rfl, m, rfl,
                Or.inr (Or.inr (Or.inr (Or.inr (Or.inl rfl))))⟩
            · exact Or.inr (Or.inr (Or.inr rfl))
            · intro m2 k hwf hmem
              exact absurd hmem (by simp)

/-- Witness for C4 at a concrete failing run: a network failure surfaces
as the 500 envelope with the network error message. -/
theorem claim4_error_envelope_witness :
    ∃ e, (visaEligibility ⟨"POST", .str "ID", .str "US"⟩ probeEnv).1.error = some e ∧
      ((∃ s stx, s ≠ 429 ∧ e = "API Error: " ++ toString s ++ " - " ++ stx) ∨
       e = "Network Error: No response received" ∨
       (∃ d, e = "Request Error: " ++ d) ∨
       e = "Max retries exceeded for rate limiting" ∨
       probeEnv.readFail = some e ∨ probeEnv.writeFail = some e) :=
  ((claim4_error_envelope ⟨"POST", .str "ID", .str "US"⟩ probeEnv).1
    (by decide)).2.2.2.2

/-!
### Claim C8 — end-to-end scenario
-/

/-- The first mocked iVisa-style provider option of the scenario:
6 days / $99.99. -/
def mockProviderOption1 : RawIVisaOption :=
  { id := some "tourist-evisa"
    visaType := some "Tourist eVisa"
    name := none
    visaRequired := some true
    processingTime := some "6 days"
    cost := some (.num ratNinetyNine99)
    currency := some "USD"
    description := some "Electronic tourist visa"
    requirements := some ["Valid passport"]
    validity := some "30 days" }

/-- The second mocked iVisa-style provider option of the scenario:
8 days / $149.99. -/
def mockProviderOption2 : RawIVisaOption :=
  { id := some "business-evisa"
    visaType := some "Business eVisa"
    name := none
    visaRequired := some true
    processingTime := some "8 days"
    cost := some (.num ratOneFortyNine99)
    currency := some "USD"
    description := some "Electronic business visa"
    requirements := some ["Valid passport"]
    validity := some "30 days" }

/-- The environment of the first scenario call: a provider returning the
two mocked options, an empty cache, no persistence failures. -/
def scenarioEnv : HandlerEnv :=
  { upstream := fun _ => .success (some [mockProviderOption1, mockProviderOption2])
    store := fun _ => none
    readFail := none
    writeFail := none
    now := 1700000000000 }

/-- The scenario request: POST `{countryCode: "ID", nationality: "US"}`. -/
def scenarioReq : VisaRequest := ⟨"POST", .str "ID", .str "US"⟩

/-- The first scenario call. -/
def scenarioRun1 : VisaResponse × List Effect × CacheStore :=
  visaEligibility scenarioReq scenarioEnv

/-- The immediate repeat call: same request against the store left by the
first call, 1 second later (well within the 24-hour TTL window). -/
def scenarioRun2 : VisaResponse × List Effect × CacheStore :=
  visaEligibility scenarioReq
    { scenarioEnv with store := scenarioRun1.2.2, now := 1700000001000 }

set_option maxRecDepth 100000 in
/-- Counterexample for C8 as stated: the scenario response holds 6
options (2 provider + the 4 entries of the current override table), not
the 7 the claim names. -/
theorem claim8_counterexample :
    (scenarioRun1.1.data.map List.length) = some 6 ∧
    (scenarioRun1.1.data.map List.length) ≠ some 7 := by
  refine ⟨by decide, by decide⟩

set_option maxRecDepth 100000 in
/-- Claim C8 as amended: the POST of `{countryCode:"ID", nationality:"US"}`
with the mocked provider (6-day/$99.99 and 8-day/$149.99 options) yields a
6-option response — the 2 provider options plus the 4 local overrides for
Indonesia per the current override table — sorted ascending by processing
days, with `cached:false` on the first call and `cached:true` with the
same data on an immediate repeat call within the TTL window. -/
theorem claim8_end_to_end :
    scenarioRun1.1.status = 200 ∧
    scenarioRun1.1.success = true ∧
    scenarioRun1.1.cached = some false ∧
    (scenarioRun1.1.data.map List.length) = some 6 ∧
    (scenarioRun1.1.data.getD []).map VisaOption.processingTimeDays =
      [6, 8, 15, 18, 22, 27] ∧
    scenarioRun2.1.status = 200 ∧
    scenarioRun2.1.cached = some true ∧
    scenarioRun2.1.data = scenarioRun1.1.data := by
  refine ⟨by decide, by decide, by decide, by decide, by decide, by decide, by decide,
    by decide⟩
